import Mathlib

/-!
Theme persistence (assets/js/theme-persistence.js)

A shallow embedding of the theme script: the browser objects the script touches
(the origin's storage area, the attributes of the document's root element, the
elements reachable through `getElementById`, the registered listeners) are the
fields of an explicit `World`, and every statement of the script is a function
`World → Except JSError α × World`: the outcome of the statement (a value, or the
exception it throws) together with the world it leaves behind.

Modelling conventions:
* `null` is `none`; a JavaScript exception is `Except.error`.
* a storage area is a map from keys to string values (absent keys map to `none`).
  Reaching the area may throw (`localStorage` is a getter of `window` that throws
  when the origin is denied storage), and a write may throw: `setItem` raises a
  `QuotaExceededError` when the user agent finds that the new value does not fit.
  Whether a write fits is the user agent's decision; it is a field of the world,
  a function of the current contents, the key and the value.
* `storageWrites` is a ghost log of the writes `setItem` has performed, oldest first.
-/

namespace ThemePersistence

/-- Exceptions a statement of the script can throw. -/
inductive JSError where
  | TypeError
  | SecurityError
  | ReferenceError
  | QuotaExceededError
  deriving DecidableEq, Repr

/-- Contents of a storage area: the value under each key, `none` when the key is absent. -/
abbrev Store := String → Option String

/-- References to element objects (what a `const checkbox` holds). -/
abbrev ElemRef := Nat

/-- The two function values the script creates. -/
inductive Listener where
  /-- The arrow function passed to `document.addEventListener("DOMContentLoaded", ...)`. -/
  | domContentLoaded
  /-- The arrow function passed to `checkbox?.addEventListener("change", ...)`;
  it closes over `checkbox`, which may be `null`. -/
  | change (checkbox : Option ElemRef)
  deriving DecidableEq, Repr

/-- An element object: its `checked` property and its listeners (event type, callback). -/
structure Element where
  checked : Bool
  listeners : List (String × Listener)
  deriving DecidableEq, Repr

/-- Everything the script can read or write. -/
structure World where
  /-- Result of evaluating `localStorage`: the storage area, or the exception thrown. -/
  localStorage : Except JSError Store
  /-- The user agent's quota decision: whether `setItem(key, value)` fits in a storage
  area with the given contents. -/
  storageFits : Store → String → String → Bool
  /-- Ghost log of the writes `setItem(key, value)` has performed, oldest first. -/
  storageWrites : List (String × String)
  /-- Attributes of `document.documentElement`. -/
  rootAttrs : String → Option String
  /-- Result of `document.getElementById(id)`. -/
  byId : String → Option ElemRef
  /-- The element objects. -/
  elements : ElemRef → Element
  /-- Listeners registered on `document` (event type, callback). -/
  documentListeners : List (String × Listener)

/-- A statement or expression of the script: outcome and world afterwards. -/
abbrev JS (α : Type) := World → Except JSError α × World

/-- Evaluation that yields `a` and touches nothing. -/
def JS.ret {α : Type} (a : α) : JS α := fun w => (Except.ok a, w)

/-- Sequencing: an exception in `m` skips `f` and keeps the world `m` left. -/
def JS.andThen {α β : Type} (m : JS α) (f : α → JS β) : JS β := fun w =>
  match m w with
  | (Except.ok a, w1) => f a w1
  | (Except.error e, w1) => (Except.error e, w1)

instance : Monad JS where
  pure := JS.ret
  bind := JS.andThen

/-! ## Browser primitives -/

/-- Evaluating the identifier `localStorage` (the getter throws when storage is denied). -/
def window_localStorage : JS Unit := fun w =>
  match w.localStorage with
  | Except.ok _ => (Except.ok (), w)
  | Except.error e => (Except.error e, w)

/-- `localStorage.getItem(key)`. -/
def localStorage_getItem (key : String) : JS (Option String) := fun w =>
  match w.localStorage with
  | Except.ok s => (Except.ok (s key), w)
  | Except.error e => (Except.error e, w)

/-- `localStorage.setItem(key, value)`: throws `QuotaExceededError`, storing nothing,
when the new value does not fit. -/
def localStorage_setItem (key value : String) : JS Unit := fun w =>
  match w.localStorage with
  | Except.ok s =>
    if w.storageFits s key value then
      (Except.ok (),
        { w with localStorage := Except.ok (Function.update s key (some value)),
                 storageWrites := w.storageWrites ++ [(key, value)] })
    else
      (Except.error JSError.QuotaExceededError, w)
  | Except.error e => (Except.error e, w)

/-- `document.documentElement.getAttribute(name)`. -/
def documentElement_getAttribute (name : String) : JS (Option String) := fun w =>
  (Except.ok (w.rootAttrs name), w)

/-- `document.documentElement.setAttribute(name, value)`. -/
def documentElement_setAttribute (name value : String) : JS Unit := fun w =>
  (Except.ok (), { w with rootAttrs := Function.update w.rootAttrs name (some value) })

/-- `document.getElementById(id)`. -/
def document_getElementById (id : String) : JS (Option ElemRef) := fun w =>
  (Except.ok (w.byId id), w)

/-- `document.addEventListener(type, callback)`. -/
def document_addEventListener (type : String) (callback : Listener) : JS Unit := fun w =>
  (Except.ok (), { w with documentListeners := w.documentListeners ++ [(type, callback)] })

/-- `x.checked` for a possibly-null `x`: a property read on `null` throws. -/
def getChecked (x : Option ElemRef) : JS Bool := fun w =>
  match x with
  | some r => (Except.ok (w.elements r).checked, w)
  | none => (Except.error JSError.TypeError, w)

/-- `x.checked = v` for a possibly-null `x`: a property write on `null` throws. -/
def setChecked (x : Option ElemRef) (v : Bool) : JS Unit := fun w =>
  match x with
  | some r =>
    (Except.ok (),
      { w with elements := Function.update w.elements r { w.elements r with checked := v } })
  | none => (Except.error JSError.TypeError, w)

/-- `x?.addEventListener(type, callback)`: skipped when `x` is `null`. -/
def optAddEventListener (x : Option ElemRef) (type : String) (callback : Listener) : JS Unit :=
  fun w =>
  match x with
  | some r =>
    (Except.ok (),
      { w with elements := Function.update w.elements r
                 { w.elements r with listeners := (w.elements r).listeners ++ [(type, callback)] } })
  | none => (Except.ok (), w)

/-! ## The script -/

/-- Lines 1-3: `if (localStorage.getItem("theme") === "light") { ... }`. -/
def ApplyStoredPreference : JS Unit := do
  let stored ← localStorage_getItem "theme"
  if stored = some "light" then
    documentElement_setAttribute "data-theme" "light"
  else
    pure ()

/-- Lines 9-10: the body of the `change` listener, closing over `checkbox`.
In each call the receiver `localStorage` / `document.documentElement` is evaluated
before the argument `checkbox.checked ? "light" : "dark"`. -/
def OnToggleChange (checkbox : Option ElemRef) : JS Unit := do
  window_localStorage
  let c1 ← getChecked checkbox
  localStorage_setItem "theme" (if c1 then "light" else "dark")
  let c2 ← getChecked checkbox
  documentElement_setAttribute "data-theme" (if c2 then "light" else "dark")

/-- Lines 6-11: the body of the `DOMContentLoaded` listener. -/
def InitializeToggle : JS Unit := do
  let checkbox ← document_getElementById "theme-toggle"
  let attr ← documentElement_getAttribute "data-theme"
  setChecked checkbox (decide (attr = some "light"))
  optAddEventListener checkbox "change" (Listener.change checkbox)

/-- Lines 1-12: the top level of the script. -/
def script : JS Unit := do
  ApplyStoredPreference
  document_addEventListener "DOMContentLoaded" Listener.domContentLoaded

/-- Calling a listener. -/
def Listener.call : Listener → JS Unit
  | Listener.domContentLoaded => InitializeToggle
  | Listener.change checkbox => OnToggleChange checkbox

/-! ## Observations -/

/-- The value stored under `key`, `none` when the key is absent or storage is denied. -/
def World.stored (w : World) (key : String) : Option String :=
  match w.localStorage with
  | Except.ok s => s key
  | Except.error _ => none

/-- The root element's `data-theme` attribute. -/
def World.theme (w : World) : Option String := w.rootAttrs "data-theme"

/-- A sample page: storage holds `theme = t` and has room, the root has attribute
`data-theme = a`, element 0 is the toggle with the given `checked` state and no listeners. -/
def samplePage (t a : Option String) (checked : Bool) : World where
  localStorage := Except.ok (fun k => if k = "theme" then t else none)
  storageFits := fun _ _ _ => true
  storageWrites := []
  rootAttrs := fun k => if k = "data-theme" then a else none
  byId := fun i => if i = "theme-toggle" then some 0 else none
  elements := fun _ => { checked := checked, listeners := [] }
  documentListeners := []

/-- A sample page without a toggle element. -/
def pageWithoutToggle (t a : Option String) : World :=
  { samplePage t a false with byId := fun _ => none }

/-- A sample page whose origin is denied storage. -/
def pageWithoutStorage (a : Option String) : World :=
  { samplePage none a false with localStorage := Except.error JSError.SecurityError }

/-- A sample page whose storage area has no room: every `setItem` is rejected. -/
def pageWithFullStorage (t a : Option String) (checked : Bool) : World :=
  { samplePage t a checked with storageFits := fun _ _ _ => false }

/-- Opening the document `dom` in the origin of `prev`: the root attributes, elements and
listeners are those of the new document, the storage area (with its quota and the log of
writes) is the one `prev` left. -/
def World.openDocument (prev dom : World) : World :=
  { dom with localStorage := prev.localStorage,
             storageFits := prev.storageFits,
             storageWrites := prev.storageWrites }

/-- One step of an origin's life: a run of one of the script's three operations, the
user setting the control (which the `change` listener then reads), or a page load that
replaces the document. The `change` listener is only ever registered with a non-null
`checkbox`. -/
inductive Step where
  | applyStoredPreference
  | initializeToggle
  | userSetsChecked (checkbox : ElemRef) (checked : Bool)
  | onToggleChange (checkbox : ElemRef)
  | pageLoad (dom : World)

/-- The operation a step runs. -/
def Step.op : Step → JS Unit
  | Step.applyStoredPreference => ApplyStoredPreference
  | Step.initializeToggle => InitializeToggle
  | Step.userSetsChecked checkbox checked => setChecked (some checkbox) checked
  | Step.onToggleChange checkbox => OnToggleChange (some checkbox)
  | Step.pageLoad dom => fun w => (Except.ok (), w.openDocument dom)

/-- The world after a step; an exception ends the step and keeps what it had done. -/
def Step.exec (st : Step) (w : World) : World := (st.op w).2

/-- The world after a sequence of steps, first step first. -/
def runSteps : List Step → World → World
  | [], w => w
  | st :: rest, w => runSteps rest (st.exec w)

/-- Whether a step is a page load. -/
def Step.isPageLoad : Step → Bool
  | Step.pageLoad _ => true
  | _ => false

/-- The value the `change` listener writes for `checkbox`: `checkbox.checked ? "light" : "dark"`. -/
def World.choice (w : World) (checkbox : ElemRef) : String :=
  if (w.elements checkbox).checked then "light" else "dark"

/-- The load-time step followed by the `DOMContentLoaded` listener. -/
def loadThenInitialize : JS Unit := do
  ApplyStoredPreference
  InitializeToggle

/-- The stored theme is `"light"` or `"dark"` and the root's `data-theme` equals it. -/
def World.Agree (w : World) : Prop :=
  (w.stored "theme" = some "light" ∧ w.theme = some "light") ∨
  (w.stored "theme" = some "dark" ∧ w.theme = some "dark")

instance (w : World) : Decidable w.Agree := by
  unfold World.Agree
  infer_instance

/-- The stored theme is `"light"` or `"dark"`. -/
def World.StoredTheme (w : World) : Prop :=
  w.stored "theme" = some "light" ∨ w.stored "theme" = some "dark"

instance (w : World) : Decidable w.StoredTheme := by
  unfold World.StoredTheme
  infer_instance

/-- A new document opened in the origin of `prev`: the root has no attributes, element 0
is the toggle with the given `checked` state, nothing is registered yet. -/
def newDocument (prev : World) (checked : Bool) : World :=
  prev.openDocument (samplePage none none checked)

/-! ## How each operation runs -/

theorem ApplyStoredPreference_light (w : World) (s : Store)
    (hs : w.localStorage = Except.ok s) (ht : s "theme" = some "light") :
    ApplyStoredPreference w =
      (Except.ok (),
        { w with rootAttrs := Function.update w.rootAttrs "data-theme" (some "light") }) := by
  simp [ApplyStoredPreference, bind, JS.andThen, localStorage_getItem, hs, ht,
    documentElement_setAttribute]

theorem ApplyStoredPreference_other (w : World) (s : Store)
    (hs : w.localStorage = Except.ok s) (ht : s "theme" ≠ some "light") :
    ApplyStoredPreference w = (Except.ok (), w) := by
  simp [ApplyStoredPreference, bind, JS.andThen, localStorage_getItem, hs, ht, pure, JS.ret]

theorem ApplyStoredPreference_denied (w : World) (e : JSError)
    (hs : w.localStorage = Except.error e) :
    ApplyStoredPreference w = (Except.error e, w) := by
  simp [ApplyStoredPreference, bind, JS.andThen, localStorage_getItem, hs]

theorem InitializeToggle_absent (w : World) (h : w.byId "theme-toggle" = none) :
    InitializeToggle w = (Except.error JSError.TypeError, w) := by
  simp [InitializeToggle, bind, JS.andThen, document_getElementById, h,
    documentElement_getAttribute, setChecked]

theorem InitializeToggle_present (w : World) (r : ElemRef) (h : w.byId "theme-toggle" = some r) :
    InitializeToggle w =
      (Except.ok (),
        { w with elements := Function.update w.elements r
                   { checked := decide (w.rootAttrs "data-theme" = some "light"),
                     listeners := (w.elements r).listeners ++
                       [("change", Listener.change (some r))] } }) := by
  simp [InitializeToggle, bind, JS.andThen, document_getElementById, h,
    documentElement_getAttribute, setChecked, optAddEventListener]

theorem OnToggleChange_run (w : World) (s : Store) (r : ElemRef)
    (hs : w.localStorage = Except.ok s)
    (hfit : w.storageFits s "theme" (w.choice r) = true) :
    OnToggleChange (some r) w =
      (Except.ok (),
        { w with
          localStorage := Except.ok (Function.update s "theme" (some (w.choice r))),
          storageWrites := w.storageWrites ++ [("theme", w.choice r)],
          rootAttrs := Function.update w.rootAttrs "data-theme" (some (w.choice r)) }) := by
  unfold World.choice at hfit
  simp [OnToggleChange, bind, JS.andThen, window_localStorage, hs, getChecked,
    localStorage_setItem, documentElement_setAttribute, hfit, World.choice]

theorem OnToggleChange_rejected (w : World) (s : Store) (r : ElemRef)
    (hs : w.localStorage = Except.ok s)
    (hfit : w.storageFits s "theme" (w.choice r) = false) :
    OnToggleChange (some r) w = (Except.error JSError.QuotaExceededError, w) := by
  unfold World.choice at hfit
  simp [OnToggleChange, bind, JS.andThen, window_localStorage, hs, getChecked,
    localStorage_setItem, hfit]

theorem OnToggleChange_denied (w : World) (e : JSError) (r : ElemRef)
    (hs : w.localStorage = Except.error e) :
    OnToggleChange (some r) w = (Except.error e, w) := by
  simp [OnToggleChange, bind, JS.andThen, window_localStorage, hs]

/-- A run of the `change` listener either throws and leaves the world as it was, or the
store is reachable and the write fits. -/
theorem OnToggleChange_outcome (w : World) (r : ElemRef) :
    (∃ e, OnToggleChange (some r) w = (Except.error e, w)) ∨
    (∃ s, w.localStorage = Except.ok s ∧ w.storageFits s "theme" (w.choice r) = true) := by
  cases hs : w.localStorage with
  | error e => exact Or.inl ⟨e, OnToggleChange_denied w e r hs⟩
  | ok s =>
    cases hfit : w.storageFits s "theme" (w.choice r) with
    | false => exact Or.inl ⟨_, OnToggleChange_rejected w s r hs hfit⟩
    | true => exact Or.inr ⟨s, rfl, hfit⟩

theorem OnToggleChange_completes (w : World) (r : ElemRef)
    (hok : (OnToggleChange (some r) w).1 = Except.ok ()) :
    ∃ s, w.localStorage = Except.ok s ∧ w.storageFits s "theme" (w.choice r) = true := by
  rcases OnToggleChange_outcome w r with ⟨e, he⟩ | h
  · rw [he] at hok
    cases hok
  · exact h

theorem World.choice_cases (w : World) (r : ElemRef) :
    w.choice r = "light" ∨ w.choice r = "dark" := by
  unfold World.choice
  cases (w.elements r).checked <;> simp

/-! ## What the load-time step and the `DOMContentLoaded` listener leave alone -/

theorem ApplyStoredPreference_store (w : World) :
    (ApplyStoredPreference w).2.localStorage = w.localStorage ∧
    (ApplyStoredPreference w).2.storageWrites = w.storageWrites := by
  cases hs : w.localStorage with
  | error e => rw [ApplyStoredPreference_denied w e hs]; exact ⟨hs, rfl⟩
  | ok s =>
    by_cases ht : s "theme" = some "light"
    · rw [ApplyStoredPreference_light w s hs ht]; exact ⟨hs, rfl⟩
    · rw [ApplyStoredPreference_other w s hs ht]; exact ⟨hs, rfl⟩

theorem InitializeToggle_store (w : World) :
    (InitializeToggle w).2.localStorage = w.localStorage ∧
    (InitializeToggle w).2.storageWrites = w.storageWrites ∧
    (InitializeToggle w).2.rootAttrs = w.rootAttrs := by
  cases h : w.byId "theme-toggle" with
  | none => rw [InitializeToggle_absent w h]; exact ⟨rfl, rfl, rfl⟩
  | some r => rw [InitializeToggle_present w r h]; exact ⟨rfl, rfl, rfl⟩

/-! ## The agreement invariant -/

theorem World.Agree.storedTheme {w : World} (h : w.Agree) : w.StoredTheme := by
  rcases h with ⟨h1, _⟩ | ⟨h1, _⟩
  · exact Or.inl h1
  · exact Or.inr h1

theorem OnToggleChange_agree (w : World) (r : ElemRef)
    (hok : (OnToggleChange (some r) w).1 = Except.ok ()) :
    (OnToggleChange (some r) w).2.Agree := by
  obtain ⟨s, hs, hfit⟩ := OnToggleChange_completes w r hok
  rw [OnToggleChange_run w s r hs hfit]
  rcases w.choice_cases r with h | h <;> simp [World.Agree, World.stored, World.theme, h]

theorem ApplyStoredPreference_agree (w : World) (h : w.Agree) :
    (ApplyStoredPreference w).2.Agree := by
  cases hs : w.localStorage with
  | error e =>
    rw [ApplyStoredPreference_denied w e hs]
    exact h
  | ok s =>
    by_cases ht : s "theme" = some "light"
    · rw [ApplyStoredPreference_light w s hs ht]
      left
      simp [World.stored, World.theme, hs, ht]
    · rw [ApplyStoredPreference_other w s hs ht]
      exact h

theorem InitializeToggle_agree (w : World) (h : w.Agree) : (InitializeToggle w).2.Agree := by
  obtain ⟨h1, _, h3⟩ := InitializeToggle_store w
  simpa [World.Agree, World.stored, World.theme, h1, h3] using h

theorem Step.exec_agree (st : Step) (w : World) (hst : st.isPageLoad = false)
    (h : w.Agree) : (st.exec w).Agree := by
  cases st with
  | applyStoredPreference => exact ApplyStoredPreference_agree w h
  | initializeToggle => exact InitializeToggle_agree w h
  | userSetsChecked r b => exact h
  | onToggleChange r =>
    rcases OnToggleChange_outcome w r with ⟨e, he⟩ | ⟨s, hs, hfit⟩
    · simp only [Step.exec, Step.op, he]
      exact h
    · apply OnToggleChange_agree
      rw [OnToggleChange_run w s r hs hfit]
  | pageLoad dom => simp [Step.isPageLoad] at hst

theorem Step.exec_storedTheme (st : Step) (w : World) (h : w.StoredTheme) :
    (st.exec w).StoredTheme := by
  cases st with
  | applyStoredPreference =>
    have h1 := (ApplyStoredPreference_store w).1
    simpa [World.StoredTheme, World.stored, Step.exec, Step.op, h1] using h
  | initializeToggle =>
    have h1 := (InitializeToggle_store w).1
    simpa [World.StoredTheme, World.stored, Step.exec, Step.op, h1] using h
  | userSetsChecked r b => exact h
  | onToggleChange r =>
    rcases OnToggleChange_outcome w r with ⟨e, he⟩ | ⟨s, hs, hfit⟩
    · simp only [Step.exec, Step.op, he]
      exact h
    · apply World.Agree.storedTheme
      apply OnToggleChange_agree
      rw [OnToggleChange_run w s r hs hfit]
  | pageLoad dom => exact h

theorem runSteps_append (pre post : List Step) :
    ∀ w : World, runSteps (pre ++ post) w = runSteps post (runSteps pre w) := by
  induction pre with
  | nil => intro w; rfl
  | cons st rest ih => intro w; exact ih (st.exec w)

theorem runSteps_storedTheme (steps : List Step) :
    ∀ w : World, w.StoredTheme → (runSteps steps w).StoredTheme := by
  induction steps with
  | nil => intro w h; exact h
  | cons st rest ih => intro w h; exact ih (st.exec w) (Step.exec_storedTheme st w h)

theorem runSteps_agree (steps : List Step) :
    ∀ w : World, (∀ st ∈ steps, st.isPageLoad = false) → w.Agree →
      (runSteps steps w).Agree := by
  induction steps with
  | nil => intro w _ h; exact h
  | cons st rest ih =>
    intro w hall h
    exact ih (st.exec w) (fun x hx => hall x (List.mem_cons_of_mem st hx))
      (Step.exec_agree st w (hall st (List.mem_cons_self st rest)) h)

/-! ## Claims -/

/-- C1 (the code differs): when `getElementById("theme-toggle")` returns `null`, the
`DOMContentLoaded` handler does leave the store, the root attributes and the listeners
as they were, but it raises: `checkbox.checked = ...` on line 7 throws a `TypeError`
before the guarded `checkbox?.addEventListener` is reached. -/
theorem C1_missing_toggle_throws (w : World) (h : w.byId "theme-toggle" = none) :
    InitializeToggle w = (Except.error JSError.TypeError, w) :=
  InitializeToggle_absent w h

theorem C1_missing_toggle_throws_witness :
    (pageWithoutToggle (some "light") (some "light")).byId "theme-toggle" = none ∧
    InitializeToggle (pageWithoutToggle (some "light") (some "light")) =
      (Except.error JSError.TypeError, pageWithoutToggle (some "light") (some "light")) :=
  ⟨rfl, C1_missing_toggle_throws _ rfl⟩

/-- C2: whatever the root's attributes were, if the value stored under `theme` is exactly
`"light"`, the load-time step completes and the root's `data-theme` is `"light"` after it. -/
theorem C2_light_is_applied (w : World) (s : Store)
    (hs : w.localStorage = Except.ok s) (ht : s "theme" = some "light") :
    (ApplyStoredPreference w).1 = Except.ok () ∧
    (ApplyStoredPreference w).2.theme = some "light" := by
  rw [ApplyStoredPreference_light w s hs ht]
  simp [World.theme]

theorem C2_light_is_applied_witness :
    (ApplyStoredPreference (samplePage (some "light") (some "dark") false)).1 = Except.ok () ∧
    (ApplyStoredPreference (samplePage (some "light") (some "dark") false)).2.theme
      = some "light" :=
  C2_light_is_applied (samplePage (some "light") (some "dark") false) _ rfl rfl

/-- C3: if the value stored under `theme` is absent or any string other than exactly
`"light"`, the load-time step completes and changes nothing: the root's `data-theme`
is what it was, so a root that was not `"light"` before is not `"light"` after. -/
theorem C3_other_values_leave_root (w : World) (s : Store)
    (hs : w.localStorage = Except.ok s) (ht : s "theme" ≠ some "light") :
    ApplyStoredPreference w = (Except.ok (), w) ∧
    (ApplyStoredPreference w).2.theme = w.theme ∧
    (w.theme ≠ some "light" → (ApplyStoredPreference w).2.theme ≠ some "light") := by
  rw [ApplyStoredPreference_other w s hs ht]
  exact ⟨rfl, rfl, fun h => h⟩

theorem C3_other_values_leave_root_witness :
    ApplyStoredPreference (samplePage (some "Light") none false)
      = (Except.ok (), samplePage (some "Light") none false) ∧
    (ApplyStoredPreference (samplePage (some "Light") none false)).2.theme
      = (samplePage (some "Light") none false).theme ∧
    ((samplePage (some "Light") none false).theme ≠ some "light" →
      (ApplyStoredPreference (samplePage (some "Light") none false)).2.theme ≠ some "light") :=
  C3_other_values_leave_root (samplePage (some "Light") none false) _ rfl (by decide)

/-- C4: when the toggle exists, whatever the root's `data-theme` and the toggle's previous
`checked` were, the `DOMContentLoaded` handler completes, leaves the root's `data-theme`
as it was, and afterwards the toggle is checked if and only if `data-theme` is `"light"`. -/
theorem C4_checked_mirrors_root (w : World) (r : ElemRef)
    (h : w.byId "theme-toggle" = some r) :
    (InitializeToggle w).1 = Except.ok () ∧
    (InitializeToggle w).2.theme = w.theme ∧
    (((InitializeToggle w).2.elements r).checked = true ↔
      (InitializeToggle w).2.theme = some "light") := by
  rw [InitializeToggle_present w r h]
  simp [World.theme]

theorem C4_checked_mirrors_root_witness :
    (InitializeToggle (samplePage none (some "dark") true)).1 = Except.ok () ∧
    (InitializeToggle (samplePage none (some "dark") true)).2.theme
      = (samplePage none (some "dark") true).theme ∧
    (((InitializeToggle (samplePage none (some "dark") true)).2.elements 0).checked = true ↔
      (InitializeToggle (samplePage none (some "dark") true)).2.theme = some "light") :=
  C4_checked_mirrors_root (samplePage none (some "dark") true) 0 rfl

/-- C5 (as stated, refuted): on a page whose storage area has no room, a run of the
`change` handler with the toggle checked throws at `setItem` (line 9), line 10 is never
reached, and neither the stored `theme` nor the root's `data-theme` becomes `"light"`. -/
theorem C5_full_store_rejects_light :
    ((pageWithFullStorage none none true).elements 0).checked = true ∧
    (OnToggleChange (some 0) (pageWithFullStorage none none true)).1
      = Except.error JSError.QuotaExceededError ∧
    (OnToggleChange (some 0) (pageWithFullStorage none none true)).2.stored "theme"
      ≠ some "light" ∧
    (OnToggleChange (some 0) (pageWithFullStorage none none true)).2.theme ≠ some "light" := by
  have h1 : (OnToggleChange (some 0) (pageWithFullStorage none none true)).2.stored "theme"
      = none := rfl
  have h2 : (OnToggleChange (some 0) (pageWithFullStorage none none true)).2.theme
      = none := rfl
  refine ⟨rfl, rfl, ?_, ?_⟩
  · rw [h1]; simp
  · rw [h2]; simp

/-- C5 (amended): with a reachable store and the toggle checked, whatever the store's
contents and the root's attributes were: if the write of `"light"` under `theme` fits, the
`change` handler completes and afterwards the stored `theme` is `"light"` and the root's
`data-theme` is `"light"`; if it does not fit, the handler raises `QuotaExceededError`
and leaves the store and the root's attributes as they were. -/
theorem C5_checked_writes_light (w : World) (s : Store) (r : ElemRef)
    (hs : w.localStorage = Except.ok s) (hc : (w.elements r).checked = true) :
    (w.storageFits s "theme" "light" = true →
      (OnToggleChange (some r) w).1 = Except.ok () ∧
      (OnToggleChange (some r) w).2.stored "theme" = some "light" ∧
      (OnToggleChange (some r) w).2.theme = some "light") ∧
    (w.storageFits s "theme" "light" = false →
      OnToggleChange (some r) w = (Except.error JSError.QuotaExceededError, w)) := by
  have hch : w.choice r = "light" := by simp [World.choice, hc]
  constructor
  · intro hfit
    rw [OnToggleChange_run w s r hs (by rw [hch]; exact hfit)]
    simp [World.stored, World.theme, hch]
  · intro hfit
    exact OnToggleChange_rejected w s r hs (by rw [hch]; exact hfit)

theorem C5_checked_writes_light_witness :
    ((OnToggleChange (some 0) (samplePage (some "dark") (some "dark") true)).1 = Except.ok () ∧
     (OnToggleChange (some 0) (samplePage (some "dark") (some "dark") true)).2.stored "theme"
       = some "light" ∧
     (OnToggleChange (some 0) (samplePage (some "dark") (some "dark") true)).2.theme
       = some "light") ∧
    OnToggleChange (some 0) (pageWithFullStorage (some "dark") (some "dark") true)
      = (Except.error JSError.QuotaExceededError,
          pageWithFullStorage (some "dark") (some "dark") true) :=
  ⟨(C5_checked_writes_light (samplePage (some "dark") (some "dark") true) _ 0 rfl rfl).1 rfl,
   (C5_checked_writes_light (pageWithFullStorage (some "dark") (some "dark") true) _ 0
      rfl rfl).2 rfl⟩

/-- C6 (as stated, refuted): on a page whose storage area has no room, a run of the
`change` handler with the toggle unchecked throws at `setItem` (line 9), line 10 is never
reached, and neither the stored `theme` nor the root's `data-theme` becomes `"dark"`. -/
theorem C6_full_store_rejects_dark :
    ((pageWithFullStorage (some "light") (some "light") false).elements 0).checked = false ∧
    (OnToggleChange (some 0) (pageWithFullStorage (some "light") (some "light") false)).1
      = Except.error JSError.QuotaExceededError ∧
    (OnToggleChange (some 0)
        (pageWithFullStorage (some "light") (some "light") false)).2.stored "theme"
      ≠ some "dark" ∧
    (OnToggleChange (some 0) (pageWithFullStorage (some "light") (some "light") false)).2.theme
      ≠ some "dark" := by
  have h1 : (OnToggleChange (some 0)
      (pageWithFullStorage (some "light") (some "light") false)).2.stored "theme"
      = some "light" := rfl
  have h2 : (OnToggleChange (some 0)
      (pageWithFullStorage (some "light") (some "light") false)).2.theme
      = some "light" := rfl
  refine ⟨rfl, rfl, ?_, ?_⟩
  · rw [h1]; decide
  · rw [h2]; decide

/-- C6 (amended): with a reachable store and the toggle unchecked, whatever the store's
contents and the root's attributes were: if the write of `"dark"` under `theme` fits, the
`change` handler completes and afterwards the stored `theme` is `"dark"` and the root's
`data-theme` is `"dark"`; if it does not fit, the handler raises `QuotaExceededError`
and leaves the store and the root's attributes as they were. -/
theorem C6_unchecked_writes_dark (w : World) (s : Store) (r : ElemRef)
    (hs : w.localStorage = Except.ok s) (hc : (w.elements r).checked = false) :
    (w.storageFits s "theme" "dark" = true →
      (OnToggleChange (some r) w).1 = Except.ok () ∧
      (OnToggleChange (some r) w).2.stored "theme" = some "dark" ∧
      (OnToggleChange (some r) w).2.theme = some "dark") ∧
    (w.storageFits s "theme" "dark" = false →
      OnToggleChange (some r) w = (Except.error JSError.QuotaExceededError, w)) := by
  have hch : w.choice r = "dark" := by simp [World.choice, hc]
  constructor
  · intro hfit
    rw [OnToggleChange_run w s r hs (by rw [hch]; exact hfit)]
    simp [World.stored, World.theme, hch]
  · intro hfit
    exact OnToggleChange_rejected w s r hs (by rw [hch]; exact hfit)

theorem C6_unchecked_writes_dark_witness :
    ((OnToggleChange (some 0) (samplePage (some "light") (some "light") false)).1
       = Except.ok () ∧
     (OnToggleChange (some 0) (samplePage (some "light") (some "light") false)).2.stored "theme"
       = some "dark" ∧
     (OnToggleChange (some 0) (samplePage (some "light") (some "light") false)).2.theme
       = some "dark") ∧
    OnToggleChange (some 0) (pageWithFullStorage (some "light") (some "light") false)
      = (Except.error JSError.QuotaExceededError,
          pageWithFullStorage (some "light") (some "light") false) :=
  ⟨(C6_unchecked_writes_dark (samplePage (some "light") (some "light") false) _ 0
      rfl rfl).1 rfl,
   (C6_unchecked_writes_dark (pageWithFullStorage (some "light") (some "light") false) _ 0
      rfl rfl).2 rfl⟩

/-- C7 (as stated, refuted): the store holds `theme = "light"` and has no room; the
`change` handler runs with `checked = false` and throws at `setItem`, so the store keeps
`"light"`; a new page loaded against it ends with the toggle checked and the root's
`data-theme` `"light"`, not with `checked = false`. -/
theorem C7_rejected_write_breaks_round_trip :
    ((pageWithFullStorage (some "light") (some "light") false).elements 0).checked = false ∧
    (newDocument (OnToggleChange (some 0)
        (pageWithFullStorage (some "light") (some "light") false)).2 false).theme = none ∧
    ((loadThenInitialize (newDocument (OnToggleChange (some 0)
        (pageWithFullStorage (some "light") (some "light") false)).2 false)).2.elements
          0).checked = true ∧
    (loadThenInitialize (newDocument (OnToggleChange (some 0)
        (pageWithFullStorage (some "light") (some "light") false)).2 false)).2.theme
      = some "light" :=
  ⟨rfl, rfl, rfl, rfl⟩

/-- C7 (amended): persistence round trip. After a run of the `change` handler with
`checked = b` on a reachable store where the write fits (so the handler completes), load
any new page against the resulting store (root without `data-theme`, toggle present with
any `checked` state): the load-time step followed by the `DOMContentLoaded` handler
completes, the toggle's `checked` is `b`, and the root's `data-theme` is `"light"`
exactly when `b` is true. -/
theorem C7_round_trip (b : Bool) (w : World) (s : Store) (r : ElemRef)
    (hs : w.localStorage = Except.ok s) (hc : (w.elements r).checked = b)
    (hfit : w.storageFits s "theme" (if b then "light" else "dark") = true)
    (page : World) (t : ElemRef)
    (hstore : page.localStorage = (OnToggleChange (some r) w).2.localStorage)
    (hroot : page.rootAttrs "data-theme" = none)
    (htoggle : page.byId "theme-toggle" = some t) :
    (loadThenInitialize page).1 = Except.ok () ∧
    ((loadThenInitialize page).2.elements t).checked = b ∧
    ((loadThenInitialize page).2.theme = some "light" ↔ b = true) := by
  have hch : w.choice r = if b then "light" else "dark" := by simp [World.choice, hc]
  rw [OnToggleChange_run w s r hs (by rw [hch]; exact hfit), hch] at hstore
  simp only at hstore
  cases b with
  | true =>
    have h1 := ApplyStoredPreference_light page _ hstore (by simp)
    have h2 := InitializeToggle_present
      { page with rootAttrs := Function.update page.rootAttrs "data-theme" (some "light") }
      t htoggle
    simp [loadThenInitialize, bind, JS.andThen, h1, h2, World.theme]
  | false =>
    have h1 := ApplyStoredPreference_other page _ hstore (by simp)
    simp [loadThenInitialize, bind, JS.andThen, h1, World.theme,
      InitializeToggle_present _ t htoggle, hroot]

theorem C7_round_trip_witness :
    (loadThenInitialize (newDocument
        (OnToggleChange (some 0) (samplePage (some "light") (some "light") false)).2
        true)).1 = Except.ok () ∧
    ((loadThenInitialize (newDocument
        (OnToggleChange (some 0) (samplePage (some "light") (some "light") false)).2
        true)).2.elements 0).checked = false ∧
    ((loadThenInitialize (newDocument
        (OnToggleChange (some 0) (samplePage (some "light") (some "light") false)).2
        true)).2.theme = some "light" ↔ false = true) :=
  C7_round_trip false (samplePage (some "light") (some "light") false) _ 0 rfl rfl rfl
    (newDocument
      (OnToggleChange (some 0) (samplePage (some "light") (some "light") false)).2
      true)
    0 rfl rfl rfl

/-- C8: idempotence of the load-time step. For every world, running the step twice in a
row gives the same outcome and the same world (root attributes and store included) as
running it once. -/
theorem C8_apply_twice (w : World) :
    JS.andThen ApplyStoredPreference (fun _ => ApplyStoredPreference) w
      = ApplyStoredPreference w ∧
    (ApplyStoredPreference (ApplyStoredPreference w).2).2.theme
      = (ApplyStoredPreference w).2.theme ∧
    (ApplyStoredPreference (ApplyStoredPreference w).2).2.localStorage
      = (ApplyStoredPreference w).2.localStorage := by
  cases hs : w.localStorage with
  | error e =>
    have h1 := ApplyStoredPreference_denied w e hs
    simp [JS.andThen, h1]
  | ok s =>
    by_cases ht : s "theme" = some "light"
    · have h1 := ApplyStoredPreference_light w s hs ht
      have h2 := ApplyStoredPreference_light
        { w with rootAttrs := Function.update w.rootAttrs "data-theme" (some "light") } s hs ht
      simp [JS.andThen, h1, h2]
    · have h1 := ApplyStoredPreference_other w s hs ht
      simp [JS.andThen, h1]

/-- C9 (as stated, refuted): on a page whose origin is denied storage the load-time step
does not complete: evaluating `localStorage` throws, nothing catches it, and the script
stops there, so its `DOMContentLoaded` listener is never registered. -/
theorem C9_denied_storage_raises :
    (ApplyStoredPreference (pageWithoutStorage none)).1
      = Except.error JSError.SecurityError ∧
    (ApplyStoredPreference (pageWithoutStorage none)).1 ≠ Except.ok () ∧
    (script (pageWithoutStorage none)).1 ≠ Except.ok () ∧
    (script (pageWithoutStorage none)).2.documentListeners = [] := by
  refine ⟨rfl, ?_, ?_, rfl⟩
  · intro h
    have h2 : (ApplyStoredPreference (pageWithoutStorage none)).1
        = Except.error JSError.SecurityError := rfl
    rw [h2] at h
    cases h
  · intro h
    have h2 : (script (pageWithoutStorage none)).1 = Except.error JSError.SecurityError := rfl
    rw [h2] at h
    cases h

/-- C9 (amended): when the store is reachable and holds no `theme` entry, the load-time
step completes without raising and leaves the world, the root's attributes included, as it
was, so a root without `data-theme` stays without it (the default, dark). When evaluating
`localStorage` throws, the step raises that same exception; the root's attributes are
still left as they were. -/
theorem C9_empty_completes_denied_raises (w : World) :
    (∀ s, w.localStorage = Except.ok s → s "theme" = none →
      ApplyStoredPreference w = (Except.ok (), w) ∧
      (ApplyStoredPreference w).2.rootAttrs = w.rootAttrs ∧
      (w.theme = none → (ApplyStoredPreference w).2.theme = none)) ∧
    (∀ e, w.localStorage = Except.error e →
      ApplyStoredPreference w = (Except.error e, w) ∧
      (ApplyStoredPreference w).2.rootAttrs = w.rootAttrs) := by
  constructor
  · intro s hs ht
    rw [ApplyStoredPreference_other w s hs (by simp [ht])]
    exact ⟨rfl, rfl, fun h => h⟩
  · intro e hs
    rw [ApplyStoredPreference_denied w e hs]
    exact ⟨rfl, rfl⟩

theorem C9_empty_completes_denied_raises_witness :
    ApplyStoredPreference (samplePage none none false)
      = (Except.ok (), samplePage none none false) ∧
    ApplyStoredPreference (pageWithoutStorage (some "dark"))
      = (Except.error JSError.SecurityError, pageWithoutStorage (some "dark")) :=
  ⟨((C9_empty_completes_denied_raises (samplePage none none false)).1 _ rfl rfl).1,
   ((C9_empty_completes_denied_raises (pageWithoutStorage (some "dark"))).2 _ rfl).1⟩

/-- C10 (as stated, refuted): (a) after a completed run of the `change` handler that
stores `"dark"`, a page load followed by the load-time step and the `DOMContentLoaded`
handler leaves the stored `theme` at `"dark"` while the root has no `data-theme`; (b) on a
storage area with no room a run of the `change` handler performs no write and the stored
`theme` stays absent. -/
theorem C10_reload_or_rejected_write :
    (OnToggleChange (some 0) (samplePage none none false)).1 = Except.ok () ∧
    (runSteps [Step.onToggleChange 0, Step.pageLoad (samplePage none none false),
        Step.applyStoredPreference, Step.initializeToggle]
      (samplePage none none false)).stored "theme" = some "dark" ∧
    (runSteps [Step.onToggleChange 0, Step.pageLoad (samplePage none none false),
        Step.applyStoredPreference, Step.initializeToggle]
      (samplePage none none false)).theme = none ∧
    (OnToggleChange (some 0) (pageWithFullStorage none none true)).2.storageWrites = [] ∧
    (runSteps [Step.onToggleChange 0] (pageWithFullStorage none none true)).stored "theme"
      = none :=
  ⟨rfl, rfl, rfl, rfl, rfl⟩

/-- C10 (amended): store lifecycle frame. (1) The load-time step and (2) the
`DOMContentLoaded` handler leave the store as it was and perform no write. (3) A run of
the `change` handler either throws and leaves the whole world as it was (no write), or
the store is reachable and the write fits; in that case it completes and performs exactly
one write, to key `theme` with value `"light"` or `"dark"`: every other key keeps its
value, `theme` is present afterwards, and the root's `data-theme` is that same value.
(4) Hence after any sequence of steps (runs of the three operations, changes of the
control by the user and page loads, in any order) that contains a completed run of the
`change` handler, the stored `theme` is `"light"` or `"dark"`; and if no page load
follows that run, the stored `theme` also equals the root's `data-theme`. -/
theorem C10_store_lifecycle_frame :
    (∀ w : World,
      (ApplyStoredPreference w).2.localStorage = w.localStorage ∧
      (ApplyStoredPreference w).2.storageWrites = w.storageWrites) ∧
    (∀ w : World,
      (InitializeToggle w).2.localStorage = w.localStorage ∧
      (InitializeToggle w).2.storageWrites = w.storageWrites) ∧
    (∀ (w : World) (r : ElemRef),
      (∃ e, OnToggleChange (some r) w = (Except.error e, w)) ∨
      (∃ s v, w.localStorage = Except.ok s ∧ w.storageFits s "theme" v = true ∧
        (v = "light" ∨ v = "dark") ∧
        (OnToggleChange (some r) w).1 = Except.ok () ∧
        (OnToggleChange (some r) w).2.storageWrites = w.storageWrites ++ [("theme", v)] ∧
        (OnToggleChange (some r) w).2.localStorage
          = Except.ok (Function.update s "theme" (some v)) ∧
        (∀ k, k ≠ "theme" → (OnToggleChange (some r) w).2.stored k = w.stored k) ∧
        (OnToggleChange (some r) w).2.stored "theme" = some v ∧
        (OnToggleChange (some r) w).2.theme = some v)) ∧
    (∀ (w : World) (pre : List Step) (r : ElemRef) (post : List Step),
      (OnToggleChange (some r) (runSteps pre w)).1 = Except.ok () →
      ((runSteps (pre ++ Step.onToggleChange r :: post) w).stored "theme" = some "light" ∨
       (runSteps (pre ++ Step.onToggleChange r :: post) w).stored "theme" = some "dark") ∧
      ((∀ st ∈ post, st.isPageLoad = false) →
        ∃ v, (v = "light" ∨ v = "dark") ∧
          (runSteps (pre ++ Step.onToggleChange r :: post) w).stored "theme" = some v ∧
          (runSteps (pre ++ Step.onToggleChange r :: post) w).theme = some v)) := by
  refine ⟨ApplyStoredPreference_store, fun w => ?_, fun w r => ?_, fun w pre r post hok => ?_⟩
  · exact ⟨(InitializeToggle_store w).1, (InitializeToggle_store w).2.1⟩
  · rcases OnToggleChange_outcome w r with h | ⟨s, hs, hfit⟩
    · exact Or.inl h
    · right
      refine ⟨s, w.choice r, hs, hfit, w.choice_cases r, ?_⟩
      rw [OnToggleChange_run w s r hs hfit]
      refine ⟨rfl, rfl, rfl, ?_, ?_, ?_⟩
      · intro k hk
        simp [World.stored, hs, Function.update, hk]
      · simp [World.stored]
      · simp [World.theme]
  · have hA : (runSteps [Step.onToggleChange r] (runSteps pre w)).Agree :=
      OnToggleChange_agree (runSteps pre w) r hok
    have hsplit : runSteps (pre ++ Step.onToggleChange r :: post) w
        = runSteps post (runSteps [Step.onToggleChange r] (runSteps pre w)) := by
      rw [runSteps_append]
      rfl
    rw [hsplit]
    refine ⟨runSteps_storedTheme post _ hA.storedTheme, fun hall => ?_⟩
    rcases runSteps_agree post _ hall hA with ⟨h1, h2⟩ | ⟨h1, h2⟩
    · exact ⟨"light", Or.inl rfl, h1, h2⟩
    · exact ⟨"dark", Or.inr rfl, h1, h2⟩

theorem C10_store_lifecycle_frame_witness :
    ((runSteps ([Step.applyStoredPreference, Step.initializeToggle,
          Step.userSetsChecked 0 true] ++ Step.onToggleChange 0 ::
          [Step.applyStoredPreference, Step.initializeToggle])
        (samplePage none none false)).stored "theme" = some "light" ∨
     (runSteps ([Step.applyStoredPreference, Step.initializeToggle,
          Step.userSetsChecked 0 true] ++ Step.onToggleChange 0 ::
          [Step.applyStoredPreference, Step.initializeToggle])
        (samplePage none none false)).stored "theme" = some "dark") ∧
    ∃ v, (v = "light" ∨ v = "dark") ∧
      (runSteps ([Step.applyStoredPreference, Step.initializeToggle,
          Step.userSetsChecked 0 true] ++ Step.onToggleChange 0 ::
          [Step.applyStoredPreference, Step.initializeToggle])
        (samplePage none none false)).stored "theme" = some v ∧
      (runSteps ([Step.applyStoredPreference, Step.initializeToggle,
          Step.userSetsChecked 0 true] ++ Step.onToggleChange 0 ::
          [Step.applyStoredPreference, Step.initializeToggle])
        (samplePage none none false)).theme = some v :=
  ⟨(C10_store_lifecycle_frame.2.2.2 (samplePage none none false)
      [Step.applyStoredPreference, Step.initializeToggle, Step.userSetsChecked 0 true] 0
      [Step.applyStoredPreference, Step.initializeToggle] rfl).1,
   (C10_store_lifecycle_frame.2.2.2 (samplePage none none false)
      [Step.applyStoredPreference, Step.initializeToggle, Step.userSetsChecked 0 true] 0
      [Step.applyStoredPreference, Step.initializeToggle] rfl).2
      (by simp [Step.isPageLoad])⟩

end ThemePersistence
